import Mathlib

/-!
Verification development for the MindMesh command risk-assessment and
execution-gating pipeline.

The definitions below are a shallow embedding of the Python sources:
  - `src/core/safety.py`   (SafetyValidator: pattern table, heuristics, scoring)
  - `src/storage/command_store.py` (CommandStore.update_command_result)
  - `src/core/parser.py`   (IntentParser.parse fallback path)
  - `src/main.py`          (the `ask` execution gate and `_execute_command`)

Python strings are embedded as `String` / `List Char`; `re.search` with
`re.IGNORECASE` is embedded by a small executable matcher covering exactly the
regex constructs occurring in the source patterns (literals, `\s`, `\w`, `.`,
`?`, `*`, `+`).  Machine floats occurring in the source (`confidence`) are
embedded as rationals via their decimal literals.
-/

namespace MindMesh

/-- Severity levels, from `RiskLevel` in src/core/safety.py. -/
inductive RiskLevel where
  | low
  | medium
  | high
  | critical
deriving DecidableEq, Repr

/-- The `.value` string of each enum member (src/core/safety.py lines 12-16). -/
def RiskLevel.value : RiskLevel → String
  | .low => "low"
  | .medium => "medium"
  | .high => "high"
  | .critical => "critical"

/-- `SafetyValidator._risk_level_score` (src/core/safety.py lines 184-192). -/
def risk_level_score : RiskLevel → Nat
  | .low => 1
  | .medium => 3
  | .high => 7
  | .critical => 10

/-- Character classes occurring in the source regular expressions. -/
inductive CClass where
  | lit (c : Char)
  | space
  | word
  | any
deriving DecidableEq, Repr

/-- Quantifiers occurring in the source regular expressions. -/
inductive Quant where
  | one
  | opt
  | star
  | plus
deriving DecidableEq, Repr

/-- A regex is a sequence of quantified character classes (no grouping or
alternation occurs in the source patterns). -/
abbrev Regex := List (CClass × Quant)

/-- Python whitespace class `\s` restricted to ASCII (all source inputs are
ASCII): space, tab, newline, carriage return, vertical tab, form feed. -/
def pyIsSpace (c : Char) : Bool :=
  c == ' ' || c == '\t' || c == '\n' || c == '\r' || c == '\x0b' || c == '\x0c'

/-- Python word class `\w` restricted to ASCII: alphanumeric or underscore. -/
def pyIsWord (c : Char) : Bool :=
  c.isAlphanum || c == '_'

/-- Whether a character matches a class.  Literals compare case-insensitively
(the source always searches with `re.IGNORECASE`; pattern literals are stored
lowercase).  `.` does not match a newline, as in Python without `re.DOTALL`. -/
def matchesClass : CClass → Char → Bool
  | .lit l, c => c.toLower == l
  | .space, c => pyIsSpace c
  | .word, c => pyIsWord c
  | .any, c => !(c == '\n')

/-- Fuel-bounded backtracking matcher: does some match of the regex begin at
the head of the string?  Fuel is a totality device only; `reSearch` always
supplies enough fuel (every step shortens the input or the regex). -/
def matchFuel : Nat → Regex → List Char → Bool
  | 0, _, _ => false
  | _ + 1, [], _ => true
  | f + 1, (cc, Quant.one) :: rs, s =>
      match s with
      | [] => false
      | c :: t => matchesClass cc c && matchFuel f rs t
  | f + 1, (cc, Quant.opt) :: rs, s =>
      matchFuel f rs s ||
        (match s with
         | [] => false
         | c :: t => matchesClass cc c && matchFuel f rs t)
  | f + 1, (cc, Quant.star) :: rs, s =>
      matchFuel f rs s ||
        (match s with
         | [] => false
         | c :: t => matchesClass cc c && matchFuel f ((cc, Quant.star) :: rs) t)
  | f + 1, (cc, Quant.plus) :: rs, s =>
      match s with
      | [] => false
      | c :: t => matchesClass cc c && matchFuel f ((cc, Quant.star) :: rs) t

/-- `re.search(pattern, s, re.IGNORECASE)`: a match exists at some position. -/
def reSearch (r : Regex) (s : List Char) : Bool :=
  (List.range (s.length + 1)).any (fun i =>
    matchFuel ((s.length + 1) * (r.length + 1) + 1) r (s.drop i))

/-- A run of case-insensitive literal atoms. -/
def litSeq (s : String) : Regex :=
  s.data.map (fun c => (CClass.lit c.toLower, Quant.one))

/-- `\s+` -/
def sPlus : CClass × Quant := (CClass.space, Quant.plus)

/-- `\s*` -/
def sStar : CClass × Quant := (CClass.space, Quant.star)

/-- `.*` -/
def dotStar : CClass × Quant := (CClass.any, Quant.star)

/-- `\w+` -/
def wPlus : CClass × Quant := (CClass.word, Quant.plus)

/-- An optional literal, e.g. `f?`. -/
def optLit (c : Char) : CClass × Quant := (CClass.lit c, Quant.opt)

/-- A danger rule: regex, its source text (kept for `blocked_patterns`),
severity and message — the entries of `_load_dangerous_patterns`. -/
structure DangerRule where
  pattern : Regex
  patternStr : String
  risk : RiskLevel
  message : String
deriving DecidableEq, Repr

/-- `SafetyValidator._load_dangerous_patterns` (src/core/safety.py lines
38-102), in source (= Python dict insertion) order. -/
def dangerous_patterns : List DangerRule :=
  [ { pattern := litSeq "rm" ++ [sPlus, dotStar] ++ litSeq "-r" ++ [optLit 'f', sPlus] ++ litSeq "/"
    , patternStr := "rm\\s+.*-rf?\\s+/"
    , risk := .critical
    , message := "Recursive deletion from root directory" }
  , { pattern := litSeq "rm" ++ [sPlus, dotStar] ++ litSeq "-r" ++ [optLit 'f', sPlus] ++ litSeq "*"
    , patternStr := "rm\\s+.*-rf?\\s+\\*"
    , risk := .high
    , message := "Recursive deletion with wildcard" }
  , { pattern := litSeq "dd" ++ [sPlus, dotStar] ++ litSeq "of=/dev/"
    , patternStr := "dd\\s+.*of=/dev/"
    , risk := .critical
    , message := "Writing directly to device" }
  , { pattern := litSeq "chmod" ++ [sPlus] ++ litSeq "777"
    , patternStr := "chmod\\s+777"
    , risk := .high
    , message := "Setting world-writable permissions" }
  , { pattern := litSeq "chown" ++ [sPlus, dotStar] ++ litSeq ":" ++ [dotStar, sPlus] ++ litSeq "/"
    , patternStr := "chown\\s+.*:.*\\s+/"
    , risk := .medium
    , message := "Changing ownership of system files" }
  , { pattern := litSeq "curl" ++ [sPlus, dotStar] ++ litSeq "|" ++ [sStar] ++ litSeq "sh"
    , patternStr := "curl\\s+.*\\|\\s*sh"
    , risk := .critical
    , message := "Downloading and executing remote script" }
  , { pattern := litSeq "wget" ++ [sPlus, dotStar] ++ litSeq "|" ++ [sStar] ++ litSeq "sh"
    , patternStr := "wget\\s+.*\\|\\s*sh"
    , risk := .critical
    , message := "Downloading and executing remote script" }
  , { pattern := litSeq "sudo" ++ [sPlus, dotStar] ++ litSeq "rm"
    , patternStr := "sudo\\s+.*rm"
    , risk := .high
    , message := "Elevated deletion command" }
  , { pattern := litSeq "mkfs" ++ [sPlus]
    , patternStr := "mkfs\\s+"
    , risk := .critical
    , message := "Filesystem creation (destructive)" }
  , { pattern := litSeq "kill" ++ [sPlus] ++ litSeq "-9" ++ [sPlus] ++ litSeq "1"
    , patternStr := "kill\\s+-9\\s+1"
    , risk := .critical
    , message := "Attempting to kill init process" }
  , { pattern := litSeq "killall" ++ [sPlus]
    , patternStr := "killall\\s+"
    , risk := .medium
    , message := "Killing processes by name" }
  , { pattern := litSeq ">" ++ [sStar] ++ litSeq "/etc/"
    , patternStr := ">\\s*/etc/"
    , risk := .high
    , message := "Overwriting system configuration" }
  , { pattern := litSeq ">>" ++ [sStar] ++ litSeq "/etc/"
    , patternStr := ">>\\s*/etc/"
    , risk := .medium
    , message := "Modifying system configuration" } ]

/-- `self.system_paths` (src/core/safety.py line 33).  The source uses a
Python set; membership tests and the break-on-first-hit warning are modelled
with the literal's written order (which order is hit first only affects the
text of a single warning when several system paths co-occur; no claim depends
on that case). -/
def system_paths : List String :=
  ["/etc", "/usr", "/boot", "/sys", "/proc", "/dev"]

/-- `self.destructive_commands` (src/core/safety.py line 34); only a
disjunction of membership tests is taken over it, so order is irrelevant. -/
def destructive_commands : List String :=
  ["rm", "dd", "mkfs", "fdisk", "wipefs"]

/-- `suspicious_chars` (src/core/safety.py line 176), literal order, with the
duplicate entry kept. -/
def suspicious_chars : List String :=
  ["`", "$(", "$\x7b", "$(", "||", "&&"]

/-- Python `needle in haystack` substring test. -/
def containsSub (needle : String) (hay : List Char) : Bool :=
  (List.range (hay.length + 1)).any (fun i => needle.data.isPrefixOf (hay.drop i))

/-- Python `str.strip()` (ASCII whitespace). -/
def pyStrip (l : List Char) : List Char :=
  ((l.dropWhile pyIsSpace).reverse.dropWhile pyIsSpace).reverse

/-- The heuristic redirection pattern `>\s*/\w+` (src/core/safety.py line 158). -/
def redirectRootPattern : Regex :=
  litSeq ">" ++ [sStar] ++ litSeq "/" ++ [wPlus]

/-- `SafetyValidator._heuristic_checks` (src/core/safety.py lines 149-182):
six independent checks, each contributing one warning, in source order. -/
def heuristic_checks (command : String) : List String :=
  let cs := command.data
  (if containsSub ";" cs || containsSub "&&" cs || containsSub "||" cs then
    ["Command contains multiple operations"] else []) ++
  (if reSearch redirectRootPattern cs then
    ["Redirecting output to root-level directory"] else []) ++
  (if containsSub "*" cs && destructive_commands.any (fun d => containsSub d cs) then
    ["Using wildcards with destructive commands"] else []) ++
  (if "sudo".data.isPrefixOf (pyStrip cs) then
    ["Command requires elevated privileges"] else []) ++
  (match system_paths.find? (fun p => containsSub p cs) with
   | some p => ["Operating on system directory: " ++ p]
   | none => []) ++
  (if suspicious_chars.any (fun d => containsSub d cs) then
    ["Command contains potentially suspicious characters"] else [])

/-- `RiskAssessment` (src/core/safety.py lines 19-25). -/
structure RiskAssessment where
  risk_level : String
  score : Nat
  warnings : List String
  blocked_patterns : List String
deriving DecidableEq, Repr

/-- Accumulator of the pattern-scanning loop in `SafetyValidator.validate`
(src/core/safety.py lines 106-123): warnings, blocked patterns, running
maximum severity, running score. -/
structure VState where
  warnings : List String
  blocked : List String
  maxRisk : RiskLevel
  score : Nat
deriving DecidableEq, Repr

/-- The running-maximum update of `validate` (src/core/safety.py lines
120-121): keep the rule's severity when its numeric score is strictly
larger. -/
def maxStep (m : RiskLevel) (rule : DangerRule) : RiskLevel :=
  if risk_level_score rule.risk > risk_level_score m then rule.risk else m

/-- One iteration of the pattern loop of `validate` (lines 112-123). -/
def validateStep (cmd : List Char) (st : VState) (rule : DangerRule) : VState :=
  if reSearch rule.pattern cmd then
    { warnings := st.warnings ++ [rule.message]
      blocked := st.blocked ++ [rule.patternStr]
      maxRisk := maxStep st.maxRisk rule
      score := st.score + risk_level_score rule.risk * 10 }
  else st

/-- The final-risk derivation of `validate` (src/core/safety.py lines
132-140): score thresholds override the running maximum pattern severity. -/
def finalRiskLevel (score : Nat) (maxRisk : RiskLevel) : RiskLevel :=
  if score ≥ 80 then .critical
  else if score ≥ 60 then .high
  else if score ≥ 30 then .medium
  else if maxRisk ≠ .low then maxRisk else .low

/-- `SafetyValidator.validate` (src/core/safety.py lines 104-147). -/
def validate (command : String) : RiskAssessment :=
  let st := dangerous_patterns.foldl (validateStep command.data) ⟨[], [], .low, 0⟩
  let additional := heuristic_checks command
  let score := st.score + additional.length * 5
  { risk_level := (finalRiskLevel score st.maxRisk).value
    score := min score 100
    warnings := st.warnings ++ additional
    blocked_patterns := st.blocked }

/-- `SafetyValidator.is_command_blocked` (src/core/safety.py lines 194-197). -/
def is_command_blocked (command : String) : Bool :=
  let assessment := validate command
  assessment.risk_level == RiskLevel.critical.value && assessment.score ≥ 90

/-- `StoredCommand` (src/storage/command_store.py lines 14-25), one row of
the `commands` table.  The SQLite `DATETIME` timestamp is embedded as an
abstract instant. -/
structure StoredCommand where
  id : Nat
  command : String
  query : String
  explanation : String
  risk_level : String
  timestamp : Nat
  executed : Bool
  success : Bool
  output : String
deriving DecidableEq, Repr

/-- A placeholder row used only as the default of `List.getD` in statements
that are guarded by an in-bounds hypothesis. -/
def dummyRecord : StoredCommand :=
  { id := 0, command := "", query := "", explanation := "", risk_level := ""
  , timestamp := 0, executed := false, success := false, output := "" }

/-- `CommandStore.update_command_result` (src/storage/command_store.py lines
89-96): the SQL `UPDATE commands SET executed = TRUE, success = ?, output = ?
WHERE id = ?`.  An UPDATE matching zero rows succeeds silently, so the
operation is total: it never raises, whether or not the id is present. -/
def update_command_result (records : List StoredCommand) (command_id : Nat)
    (success : Bool) (output : String) : List StoredCommand :=
  records.map (fun r =>
    if r.id = command_id then
      { r with executed := true, success := success, output := output }
    else r)

/-- `ParseResult` (src/core/parser.py lines 12-21); the float `confidence`
is embedded as a rational. -/
structure ParseResult where
  command : String
  explanation : String
  risk_level : String
  confidence : Rat
  alternatives : List String
  warnings : List String
deriving DecidableEq, Repr

/-- The fields read off a successfully `json.loads`-decoded adapter response
by `IntentParser.parse` (src/core/parser.py lines 90-97); absent keys are
`none` and replaced by the source's `.get` defaults. -/
structure LlmJson where
  command : Option String
  explanation : Option String
  risk_level : Option String
  confidence : Option Rat
  alternatives : Option (List String)
  warnings : Option (List String)
deriving DecidableEq, Repr

/-- Python `response.split('\n')` on a character list. -/
def splitNl : List Char → List (List Char)
  | [] => [[]]
  | c :: rest =>
      let r := splitNl rest
      if c == '\n' then [] :: r
      else
        match r with
        | [] => [[c]]
        | h :: t => (c :: h) :: t

/-- The line scan of `IntentParser._fallback_parse` (src/core/parser.py lines
132-143): the first line whose strip is non-empty and starts with neither
`#` nor `//`, returned stripped. -/
def fallbackScan : List (List Char) → Option (List Char)
  | [] => none
  | l :: ls =>
      let t := pyStrip l
      if !t.isEmpty && !("#".data.isPrefixOf t) && !("//".data.isPrefixOf t) then
        some t
      else fallbackScan ls

/-- `IntentParser._fallback_parse` (src/core/parser.py lines 126-145). -/
def fallback_parse (response query : String) : Option ParseResult :=
  (fallbackScan (splitNl (pyStrip response.data))).map (fun t =>
    { command := String.mk t
      explanation := "Generated command for: " ++ query
      risk_level := "medium"
      confidence := 6 / 10
      alternatives := []
      warnings := ["Fallback parsing used - please verify command"] })

/-- The result built by `IntentParser.parse` from a decoded JSON object
(src/core/parser.py lines 90-97), with the source's `.get` defaults. -/
def parseFromJson (f : LlmJson) : ParseResult :=
  { command := f.command.getD ""
    explanation := f.explanation.getD ""
    risk_level := f.risk_level.getD "medium"
    confidence := f.confidence.getD (8 / 10)
    alternatives := f.alternatives.getD []
    warnings := f.warnings.getD [] }

/-- The `try`/`except json.JSONDecodeError` control flow of
`IntentParser.parse` (src/core/parser.py lines 83-104).  `json.loads` is the
external Python standard library; its outcome on the raw adapter response is
passed in: `some f` for a decoded object, `none` for `JSONDecodeError`, in
which case the source falls back to `_fallback_parse` on the same raw text. -/
def parseWithJson (jsonResult : Option LlmJson) (response query : String) :
    Option ParseResult :=
  match jsonResult with
  | some f => some (parseFromJson f)
  | none => fallback_parse response query

/-- The possible outcomes of `subprocess.run` inside `_execute_command`
(src/main.py lines 236-242): normal completion with a return code,
`subprocess.TimeoutExpired`, or any other exception. -/
inductive SubprocessResult where
  | completed (returncode : Int)
  | timeoutExpired
  | err
deriving DecidableEq, Repr

/-- The `timeout=30` argument of `subprocess.run` (src/main.py line 241). -/
def executionTimeoutSeconds : Nat := 30

/-- `_execute_command` (src/main.py lines 231-259): returns whether the
execution is reported as successful.  A timeout or any other exception is
caught and reported as `false`. -/
def executeCommand : SubprocessResult → Bool
  | .completed rc => rc == 0
  | .timeoutExpired => false
  | .err => false

/-- The observable effects of one run of the `ask` pipeline: whether the
shell command was invoked, how many times, the `CommandStore.store_command`
calls as (command, query, explanation, risk_level) tuples, and the session
history appends as (query, command, executed) tuples. -/
structure AskEffects where
  ranCommand : Bool
  execAttempts : Nat
  storedRecords : List (String × String × String × String)
  historyEntries : List (String × String × Bool)
deriving DecidableEq, Repr

/-- The execution-gating tail of `ask` (src/main.py lines 99-131), from the
already-generated command onward.  `confirm1` and `confirm2` are the answers
the two `Confirm.ask` prompts would return if reached (`confirm1` is only
consulted when `execute` is false, `confirm2` only on the critical branch);
`subproc` is the underlying shell outcome if execution is reached.
Faithfully kept from the source: the early `return` on a declined critical
confirmation (lines 110-112) skips the `add_to_history` call of line 131,
and a successful execution first appends via `add_interaction` with its
default `executed=False` (line 128) and then via `add_to_history` with
`executed=should_execute` (line 131). -/
def ask (query command explanation : String) (execute dry_run : Bool)
    (confirm1 confirm2 : Bool) (subproc : SubprocessResult) : AskEffects :=
  let risk := validate command
  let should_execute := if dry_run then false else (execute || confirm1)
  if should_execute then
    if risk.risk_level == "critical" && !confirm2 then
      { ranCommand := false, execAttempts := 0, storedRecords := []
      , historyEntries := [] }
    else
      let success := executeCommand subproc
      { ranCommand := true
        execAttempts := 1
        storedRecords :=
          if success then [(command, query, explanation, risk.risk_level)] else []
        historyEntries :=
          (if success then [(query, command, false)] else []) ++
            [(query, command, true)] }
  else
    { ranCommand := false, execAttempts := 0, storedRecords := []
    , historyEntries := [(query, command, false)] }

/-! ### Specification-side definitions

The following definitions restate, directly from the spec's words, the
quantities the claims compare the implementation against: the set of matched
rules, the additive score, the maximum matched severity, and the
threshold-with-severity-floor level derivation. -/

/-- The rules of the static table whose pattern matches the command
(case-insensitively, no short-circuiting), in table order. -/
def matchedRules (command : String) : List DangerRule :=
  dangerous_patterns.filter (fun r => reSearch r.pattern command.data)

/-- The additive rule score: `weight(severity) * 10` summed over a rule
list. -/
def sumRuleScore (rs : List DangerRule) : Nat :=
  (rs.map (fun r => risk_level_score r.risk * 10)).sum

/-- The maximum severity among a list of matched rules, `Low` when none
matched. -/
def maxSeverity (rs : List DangerRule) : RiskLevel :=
  rs.foldl maxStep .low

/-- The level derivation as the claim words it: Critical at score ≥ 80, High
at ≥ 60, Medium at ≥ 30, otherwise the maximum severity among matched
patterns (which is `Low` when no pattern matched). -/
def levelPerClaim (score : Nat) (rs : List DangerRule) : RiskLevel :=
  if score ≥ 80 then .critical
  else if score ≥ 60 then .high
  else if score ≥ 30 then .medium
  else maxSeverity rs

/-- The score accumulated by the pattern loop of `validate` after its first
`n` iterations. -/
def ruleScoreAfter (command : String) (n : Nat) : Nat :=
  ((dangerous_patterns.take n).foldl (validateStep command.data) ⟨[], [], .low, 0⟩).score

/-- The first non-empty, non-comment line of the raw adapter output (each
line stripped), as the spec describes the fallback command. -/
def firstSuitableLine (response : String) : Option (List Char) :=
  ((splitNl (pyStrip response.data)).map pyStrip).find? (fun t =>
    !t.isEmpty && !("#".data.isPrefixOf t) && !("//".data.isPrefixOf t))

/-- The fallback `ParseResult` built from a suitable line, as
`_fallback_parse` builds it. -/
def fallbackResultOf (t : List Char) (query : String) : ParseResult :=
  { command := String.mk t
    explanation := "Generated command for: " ++ query
    risk_level := "medium"
    confidence := 6 / 10
    alternatives := []
    warnings := ["Fallback parsing used - please verify command"] }

/-- Sample stored row used by concrete witnesses. -/
def sampleA : StoredCommand :=
  { id := 1, command := "ls -la", query := "list files", explanation := "lists"
  , risk_level := "low", timestamp := 5, executed := false, success := false
  , output := "" }

/-- Second sample stored row used by concrete witnesses. -/
def sampleB : StoredCommand :=
  { id := 2, command := "sleep 100", query := "wait", explanation := "waits"
  , risk_level := "low", timestamp := 6, executed := false, success := false
  , output := "" }

/-- The fallback result the parser produces for raw output `du -sh` and
query `disk`, used by a concrete witness. -/
def fallbackSample : ParseResult :=
  { command := "du -sh", explanation := "Generated command for: disk"
  , risk_level := "medium", confidence := 6 / 10, alternatives := []
  , warnings := ["Fallback parsing used - please verify command"] }

/-! ### Helper lemmas -/

/-- The pattern loop of `validate` computes, from any starting state, the
appended messages and pattern texts of the matched rules, their running
maximum severity, and the additive score of the matched rules. -/
theorem foldl_validateStep_spec (cmd : List Char) (L : List DangerRule)
    (st : VState) :
    L.foldl (validateStep cmd) st =
      { warnings := st.warnings ++
          (L.filter (fun r => reSearch r.pattern cmd)).map DangerRule.message
      , blocked := st.blocked ++
          (L.filter (fun r => reSearch r.pattern cmd)).map DangerRule.patternStr
      , maxRisk := (L.filter (fun r => reSearch r.pattern cmd)).foldl maxStep st.maxRisk
      , score := st.score + sumRuleScore (L.filter (fun r => reSearch r.pattern cmd)) } := by
  induction L generalizing st with
  | nil => simp [sumRuleScore]
  | cons r L ih =>
    by_cases h : reSearch r.pattern cmd
    · simp [List.foldl_cons, List.filter_cons, h, validateStep, ih, sumRuleScore,
        List.append_assoc, Nat.add_assoc]
    · simp [List.foldl_cons, List.filter_cons, h, validateStep, ih]

/-- The source's low-score branch `max_risk if max_risk != LOW else LOW`
collapses to `max_risk`, so `finalRiskLevel` is pure thresholds with the
maximum severity as the low-score fallback. -/
theorem finalRiskLevel_eq (score : Nat) (m : RiskLevel) :
    finalRiskLevel score m =
      if score ≥ 80 then .critical
      else if score ≥ 60 then .high
      else if score ≥ 30 then .medium
      else m := by
  cases m <;> simp [finalRiskLevel]

/-- `validate` in closed form: its fields are determined by the matched
rules and the heuristic warnings. -/
theorem validate_eq (c : String) :
    validate c =
      { risk_level :=
          (finalRiskLevel (sumRuleScore (matchedRules c) + (heuristic_checks c).length * 5)
            (maxSeverity (matchedRules c))).value
      , score := min (sumRuleScore (matchedRules c) + (heuristic_checks c).length * 5) 100
      , warnings := (matchedRules c).map DangerRule.message ++ heuristic_checks c
      , blocked_patterns := (matchedRules c).map DangerRule.patternStr } := by
  unfold validate
  rw [foldl_validateStep_spec]
  simp only [matchedRules, maxSeverity, sumRuleScore, Nat.zero_add, List.nil_append]

/-- The fallback line scan is the `find?` of the first suitable stripped
line. -/
theorem fallbackScan_eq_find (ls : List (List Char)) :
    fallbackScan ls =
      (ls.map pyStrip).find? (fun t =>
        !t.isEmpty && !("#".data.isPrefixOf t) && !("//".data.isPrefixOf t)) := by
  induction ls with
  | nil => rfl
  | cons l ls ih =>
    by_cases h : (!(pyStrip l).isEmpty && !("#".data.isPrefixOf (pyStrip l)) &&
        !("//".data.isPrefixOf (pyStrip l))) = true
    · simp [fallbackScan, h, List.find?_cons_of_pos]
    · simp only [Bool.not_eq_true] at h
      simp [fallbackScan, h, List.find?_cons_of_neg, ih]

/-- Indexing commutes with `List.map` below the length, for any defaults. -/
theorem getD_map_of_lt (f : StoredCommand → StoredCommand) :
    ∀ (l : List StoredCommand) (i : Nat), i < l.length →
      ∀ d1 d2, (l.map f).getD i d1 = f (l.getD i d2) := by
  intro l
  induction l with
  | nil => intro i h; simp at h
  | cons a l ih =>
    intro i h d1 d2
    cases i with
    | zero => rfl
    | succ i => exact ih i (by simpa using h) d1 d2

/-- Taking one more rule never lowers the additive score of the matched
prefix. -/
theorem sumRuleScore_filter_take_mono (p : DangerRule → Bool) :
    ∀ (L : List DangerRule) (n : Nat),
      sumRuleScore ((L.take n).filter p) ≤ sumRuleScore ((L.take (n + 1)).filter p) := by
  intro L
  induction L with
  | nil => intro n; simp
  | cons r L ih =>
    intro n
    cases n with
    | zero =>
      cases h : p r <;>
        simp [List.take, List.filter_cons, h, sumRuleScore, Nat.zero_le]
    | succ n =>
      cases h : p r <;>
        simpa [List.take, List.filter_cons, h, sumRuleScore] using ih n

/-! ### Claim theorems -/

/-- C1: for every command, `validate` returns the additive score — weight
times ten per matched rule plus five per fired heuristic, clamped at 100 —
and the threshold-derived level (Critical at ≥ 80, High at ≥ 60, Medium at
≥ 30, else the maximum matched severity, Low when nothing matched); and at
the score of three Medium matches alone, 90, the derived level is Critical. -/
theorem c1_validate_score_and_level (c : String) :
    (validate c).score =
      min (sumRuleScore (matchedRules c) + (heuristic_checks c).length * 5) 100 ∧
    (validate c).risk_level =
      (levelPerClaim (sumRuleScore (matchedRules c) + (heuristic_checks c).length * 5)
        (matchedRules c)).value ∧
    risk_level_score RiskLevel.medium * 10 * 3 = 90 ∧
    finalRiskLevel (risk_level_score RiskLevel.medium * 10 * 3) RiskLevel.medium =
      RiskLevel.critical := by
  refine ⟨?_, ?_, by decide, by decide⟩
  · rw [validate_eq]
  · rw [validate_eq]
    rw [levelPerClaim, finalRiskLevel_eq]

/-- C2: `is_command_blocked` is true exactly when the assessment is Critical
with score at least 90, and in particular false whenever the assessment is
Critical with score between 80 and 89. -/
theorem c2_blocked_iff (c : String) :
    (is_command_blocked c = true ↔
      (validate c).risk_level = "critical" ∧ (validate c).score ≥ 90) ∧
    ((validate c).risk_level = "critical" ∧ 80 ≤ (validate c).score ∧
        (validate c).score ≤ 89 →
      is_command_blocked c = false) := by
  constructor
  · simp [is_command_blocked, RiskLevel.value]
  · rintro ⟨h1, h2, h3⟩
    simp [is_command_blocked, RiskLevel.value, h1]
    omega

/-- C2 witness: `sudo chmod 777 /etc/x` is assessed Critical with score 80,
inside [80, 89], and is not blocked. -/
theorem c2_blocked_iff_witness :
    is_command_blocked "sudo chmod 777 /etc/x" = false :=
  (c2_blocked_iff "sudo chmod 777 /etc/x").2 (by decide)

/-- C3: evaluating the gate of `ask` at the claim's failing input. The
command `rm -rf /` satisfies the hard-block predicate (`is_command_blocked`
is true), yet with pre-authorized execution (the `--execute` flag) and the
single critical confirmation granted the gate runs it — `ask` never
consults `is_command_blocked` and has no blocked state, so the claimed
non-interactive hard block does not exist.  The last two conjuncts record
the interactive half: with both confirmations granted the command runs, and
a declined critical confirmation stops it. -/
theorem c3_no_hard_block :
    is_command_blocked "rm -rf /" = true ∧
    (ask "delete everything" "rm -rf /" "" true false false true
      (SubprocessResult.completed 0)).ranCommand = true ∧
    (ask "delete everything" "rm -rf /" "" false false true true
      (SubprocessResult.completed 0)).ranCommand = true ∧
    (ask "delete everything" "rm -rf /" "" false false true false
      (SubprocessResult.completed 0)).ranCommand = false := by decide

/-- C4: the pattern-loop score never decreases as one more rule is
processed; the final score is the loop's total plus five per heuristic
warning (heuristics only ever add), clamped at 100; and re-assessing the
same text yields an identical assessment. -/
theorem c4_monotone_additive_deterministic (c : String) (n : Nat) :
    ruleScoreAfter c n ≤ ruleScoreAfter c (n + 1) ∧
    (validate c).score =
      min (ruleScoreAfter c dangerous_patterns.length +
        (heuristic_checks c).length * 5) 100 ∧
    ruleScoreAfter c dangerous_patterns.length ≤
      ruleScoreAfter c dangerous_patterns.length + (heuristic_checks c).length * 5 ∧
    validate c = validate c := by
  refine ⟨?_, ?_, Nat.le_add_right _ _, rfl⟩
  · unfold ruleScoreAfter
    rw [foldl_validateStep_spec, foldl_validateStep_spec]
    simpa using
      sumRuleScore_filter_take_mono (fun r => reSearch r.pattern c.data)
        dangerous_patterns n
  · unfold validate ruleScoreAfter
    rw [List.take_length]

/-- C5 counterexample: updating an id absent from the store is not a
failure — the embedded operation (like the SQL `UPDATE ... WHERE id = ?` it
models, which succeeds on zero matched rows; the Python method raises
nothing) completes normally and returns the store unchanged, both on the
empty store and on a store that lacks the id.  There is no NotFound error. -/
theorem c5_counterexample :
    update_command_result [] 7 false "boom" = [] ∧
    update_command_result [sampleA] 7 false "boom" = [sampleA] := by decide

/-- C5 as amended: `update_command_result` with an absent id is a silent
no-op returning every record unchanged (no error is raised); with a present
id it preserves length, rewrites each record carrying that id to the same
record with `executed := true` and the given outcome fields, and leaves
records with any other id unchanged. -/
theorem c5_silent_noop_or_update (records : List StoredCommand) (cid : Nat)
    (s : Bool) (o : String) :
    ((∀ r ∈ records, r.id ≠ cid) →
      update_command_result records cid s o = records) ∧
    (update_command_result records cid s o).length = records.length ∧
    (∀ i, i < records.length →
      ((records.getD i dummyRecord).id = cid →
        (update_command_result records cid s o).getD i dummyRecord =
          { records.getD i dummyRecord with
              executed := true, success := s, output := o }) ∧
      ((records.getD i dummyRecord).id ≠ cid →
        (update_command_result records cid s o).getD i dummyRecord =
          records.getD i dummyRecord)) := by
  refine ⟨?_, by simp [update_command_result], ?_⟩
  · intro h
    have hcongr : records.map (fun r =>
        if r.id = cid then { r with executed := true, success := s, output := o }
        else r) = records.map id :=
      List.map_congr_left (fun r hr => by rw [if_neg (h r hr)]; rfl)
    unfold update_command_result
    rw [hcongr, List.map_id]
  · intro i hi
    have key := getD_map_of_lt (fun r =>
      if r.id = cid then { r with executed := true, success := s, output := o }
      else r) records i hi dummyRecord dummyRecord
    constructor
    · intro hid
      unfold update_command_result
      rw [key, if_pos hid]
    · intro hid
      unfold update_command_result
      rw [key, if_neg hid]

/-- C5 witness: id 99 is absent from the one-record store, and the update
returns the store unchanged. -/
theorem c5_silent_noop_or_update_witness :
    update_command_result [sampleA] 99 true "zz" = [sampleA] :=
  (c5_silent_noop_or_update [sampleA] 99 true "zz").1 (by decide)

/-- C6 counterexample: at a timed-out execution of an approved command the
pipeline reports failure (`executeCommand` of a `TimeoutExpired` is false)
and the command did run, but no `store_command` call is made at all — no
CommandRecord with `success = false` is written, refuting the claim's
recording clause. -/
theorem c6_counterexample :
    executeCommand SubprocessResult.timeoutExpired = false ∧
    (ask "wait" "sleep 100" "" true false false true
      SubprocessResult.timeoutExpired).ranCommand = true ∧
    (ask "wait" "sleep 100" "" true false false true
      SubprocessResult.timeoutExpired).storedRecords = [] := by decide

/-- C6 as amended: the execution timeout is 30 seconds; a timeout is
surfaced to the caller as a failed execution; on a timed-out run no
CommandRecord at all is written (records are written only for successful
executions); and the execution is never retried — at most one invocation
per request. -/
theorem c6_timeout_failed_not_recorded (q c e : String) (ex dr c1 c2 : Bool)
    (sp : SubprocessResult) :
    executionTimeoutSeconds = 30 ∧
    executeCommand SubprocessResult.timeoutExpired = false ∧
    (ask q c e ex dr c1 c2 SubprocessResult.timeoutExpired).storedRecords = [] ∧
    (ask q c e ex dr c1 c2 sp).execAttempts ≤ 1 := by
  refine ⟨rfl, rfl, ?_, ?_⟩
  · unfold ask
    dsimp only
    repeat' split
    all_goals simp_all [executeCommand]
  · unfold ask
    dsimp only
    repeat' split
    all_goals simp

/-- C7: evaluating `ask` at the claim's failing input.  For the Critical
command `rm -rf /`, a granted first confirmation followed by a declined
second (critical) confirmation takes the early return of src/main.py line
112, so no session-history entry is appended — refuting the claim that
every decline still appends a not-executed entry (as the decline at the
first prompt, third conjunct, indeed does). -/
theorem c7_second_decline_skips_history :
    (validate "rm -rf /").risk_level = "critical" ∧
    (ask "delete temp files" "rm -rf /" "" false false true false
      (SubprocessResult.completed 0)).historyEntries = [] ∧
    (ask "delete temp files" "rm -rf /" "" false false false false
      (SubprocessResult.completed 0)).historyEntries =
        [("delete temp files", "rm -rf /", false)] := by decide

/-- C8: on the reference inputs, `rm -rf /` is assessed Critical with the
root-deletion warning and score at least 80, and `ls -la` is assessed Low
with score 0 and no warnings. -/
theorem c8_reference_inputs :
    (validate "rm -rf /").risk_level = "critical" ∧
    "Recursive deletion from root directory" ∈ (validate "rm -rf /").warnings ∧
    (validate "rm -rf /").score ≥ 80 ∧
    (validate "ls -la").risk_level = "low" ∧
    (validate "ls -la").score = 0 ∧
    (validate "ls -la").warnings = [] := by decide

/-- C9 counterexample: on the unparseable raw output `ls -la` the fallback
result's single warning is `Fallback parsing used - please verify command`
with an ASCII hyphen; the claim's quoted warning with an em dash is not an
element of the warnings. -/
theorem c9_counterexample :
    parseWithJson none "ls -la" "list files" =
      some (fallbackResultOf "ls -la".data "list files") ∧
    "Fallback parsing used — please verify command" ∉
      ((parseWithJson none "ls -la" "list files").elim [] ParseResult.warnings) :=
  ⟨rfl, by decide⟩

/-- C9 as amended: when JSON decoding of the raw adapter output fails, the
parser returns the fallback result built from the first non-empty,
non-comment line (stripped) when one exists, and `none` otherwise — the
failure is caught, never raised; every returned fallback result has
confidence exactly 0.6 and carries the warning
`Fallback parsing used - please verify command` (ASCII hyphen). -/
theorem c9_fallback_parse (response query : String) :
    parseWithJson none response query =
      (firstSuitableLine response).map (fun t => fallbackResultOf t query) ∧
    (∀ r, parseWithJson none response query = some r →
      r.confidence = 6 / 10 ∧
      "Fallback parsing used - please verify command" ∈ r.warnings) := by
  have h : parseWithJson none response query =
      (firstSuitableLine response).map (fun t => fallbackResultOf t query) := by
    unfold parseWithJson fallback_parse firstSuitableLine fallbackResultOf
    rw [fallbackScan_eq_find]
  refine ⟨h, ?_⟩
  intro r hr
  rw [h] at hr
  obtain ⟨t, ht, hfr⟩ := Option.map_eq_some'.1 hr
  rw [← hfr]
  exact ⟨rfl, by simp [fallbackResultOf]⟩

/-- C9 witness: the fallback result for raw output `du -sh` and query
`disk` has confidence 0.6 and the hyphenated warning. -/
theorem c9_fallback_parse_witness :
    fallbackSample.confidence = 6 / 10 ∧
    "Fallback parsing used - please verify command" ∈ fallbackSample.warnings :=
  (c9_fallback_parse "du -sh" "disk").2 fallbackSample rfl

/-- C10: for an in-bounds position, `update_command_result` preserves the
store's length; a record whose id differs from the target is unchanged; and
a record carrying the target id gets `executed = true` unconditionally (for
either value of `success`), the given `success` and `output`, and keeps its
id, command, query, explanation, risk_level and timestamp. -/
theorem c10_update_outcome_frame (records : List StoredCommand) (cid : Nat)
    (s : Bool) (o : String) (i : Nat) (h : i < records.length) :
    (update_command_result records cid s o).length = records.length ∧
    ((records.getD i dummyRecord).id ≠ cid →
      (update_command_result records cid s o).getD i dummyRecord =
        records.getD i dummyRecord) ∧
    ((records.getD i dummyRecord).id = cid →
      ((update_command_result records cid s o).getD i dummyRecord).executed = true ∧
      ((update_command_result records cid s o).getD i dummyRecord).success = s ∧
      ((update_command_result records cid s o).getD i dummyRecord).output = o ∧
      ((update_command_result records cid s o).getD i dummyRecord).id =
        (records.getD i dummyRecord).id ∧
      ((update_command_result records cid s o).getD i dummyRecord).command =
        (records.getD i dummyRecord).command ∧
      ((update_command_result records cid s o).getD i dummyRecord).query =
        (records.getD i dummyRecord).query ∧
      ((update_command_result records cid s o).getD i dummyRecord).explanation =
        (records.getD i dummyRecord).explanation ∧
      ((update_command_result records cid s o).getD i dummyRecord).risk_level =
        (records.getD i dummyRecord).risk_level ∧
      ((update_command_result records cid s o).getD i dummyRecord).timestamp =
        (records.getD i dummyRecord).timestamp) := by
  have key := getD_map_of_lt (fun r =>
    if r.id = cid then { r with executed := true, success := s, output := o }
    else r) records i h dummyRecord dummyRecord
  refine ⟨by simp [update_command_result], ?_, ?_⟩
  · intro hid
    unfold update_command_result
    rw [key, if_neg hid]
  · intro hid
    unfold update_command_result
    rw [key, if_pos hid]
    exact ⟨rfl, rfl, rfl, rfl, rfl, rfl, rfl, rfl, rfl⟩

/-- C10 witness: in a two-record store, marking id 2 as a failed run sets
its `executed` flag even though `success` is false, and leaves the record
with id 1 untouched. -/
theorem c10_update_outcome_frame_witness :
    ((update_command_result [sampleA, sampleB] 2 false "timed out").getD 1
      dummyRecord).executed = true ∧
    (update_command_result [sampleA, sampleB] 2 false "timed out").getD 0
      dummyRecord = sampleA := by
  have h1 := c10_update_outcome_frame [sampleA, sampleB] 2 false "timed out" 1 (by decide)
  have h0 := c10_update_outcome_frame [sampleA, sampleB] 2 false "timed out" 0 (by decide)
  exact ⟨(h1.2.2 (by decide)).1, h0.2.1 (by decide)⟩

end MindMesh
